import Mathlib

/-!
Shallow embedding of the account store of collaborate-core
(`src/user_manager.rs`), together with the millisecond-truncation helper
of `src/document_service.rs`.  The three ScyllaDB tables (`users`,
`users_by_username`, `users_by_email`) are modelled as association lists
whose values have nullable (Option) columns, matching CQL row semantics.
Clock readings (`Utc::now()`) and generated UUIDs (`Uuid::new_v4()`) are
passed as explicit parameters.  Database round trips are modelled on
their success path; the operations record their effects (the batches
they execute and the point lookups they issue) so that claims about
those effects can be stated.
-/

/-- UUIDs are modelled as natural numbers. -/
abbrev Uuid := Nat

/-- UTC instants are modelled as nanoseconds since the epoch; `chrono`'s
`DateTime<Utc>` carries nanosecond precision. -/
abbrev Instant := Nat

/-- From `src/document_service.rs`, `TruncateToMillis::trunc_to_millis`:
convert to milliseconds since the epoch and back, truncating
sub-millisecond precision. -/
def trunc_to_millis (t : Instant) : Instant := t / 1000000 * 1000000

/-- The `User` model struct (`src/user_manager.rs`). -/
structure User where
  user_id : Uuid
  username : String
  email : String
  hashed_password : String
  first_name : Option String
  last_name : Option String
  is_active : Bool
  email_verified : Bool
  last_login_at : Option Instant
  created_at : Instant
  updated_at : Instant
deriving DecidableEq, Repr

/-- The reduced `AuthDetails` projection (`src/user_manager.rs`). -/
structure AuthDetails where
  user_id : Uuid
  username : String
  email : String
  hashed_password : String
  is_active : Bool
  email_verified : Bool
deriving DecidableEq, Repr

/-- The `UserManagerError` enum (`src/user_manager.rs`); error payloads
carried by the driver are dropped. -/
inductive UserManagerError where
  | queryError
  | newSessionError
  | userNotFound
  | usernameTaken (username : String)
  | emailTaken (email : String)
  | usernameOrEmailAlreadyExists
  | inconsistentData (user_id : Uuid)
  | batchOperationFailed (msg : String)
  | expectedRowNotFound
  | rowParseError
deriving DecidableEq, Repr

/-- The `AuthenticationError` enum (`src/user_manager.rs`). -/
inductive AuthenticationError where
  | userNotFound
  | accountNotActive
  | emailNotVerified
  | databaseError (e : UserManagerError)
deriving DecidableEq, Repr

/-- One stored row of the `users` table.  Every non-key column of a CQL
row is nullable, so each field is an Option; an absent column is `none`. -/
structure UsersRow where
  username : Option String := none
  email : Option String := none
  hashed_password : Option String := none
  first_name : Option String := none
  last_name : Option String := none
  is_active : Option Bool := none
  email_verified : Option Bool := none
  last_login_at : Option Instant := none
  created_at : Option Instant := none
  updated_at : Option Instant := none
deriving DecidableEq, Repr

/-- The three physically independent tables of the account store.  The
partition key of each table is the association-list key; the `user_id`
column of `users` coincides with its key. -/
structure DB where
  users : List (Uuid × UsersRow) := []
  users_by_username : List (String × Uuid) := []
  users_by_email : List (String × Uuid) := []
deriving DecidableEq, Repr

/-- Point lookup by partition key. -/
def assocFind [DecidableEq α] (k : α) : List (α × β) → Option β
  | [] => none
  | (k1, v1) :: rest => if k = k1 then some v1 else assocFind k rest

/-- Write (insert or overwrite) the row keyed by `k`. -/
def assocSet [DecidableEq α] (k : α) (v : β) : List (α × β) → List (α × β)
  | [] => [(k, v)]
  | (k1, v1) :: rest => if k = k1 then (k, v) :: rest else (k1, v1) :: assocSet k v rest

/-- Delete the row keyed by `k`. -/
def assocRemove [DecidableEq α] (k : α) : List (α × β) → List (α × β)
  | [] => []
  | (k1, v1) :: rest => if k = k1 then assocRemove k rest else (k1, v1) :: assocRemove k rest

/-- The scylla driver's `BatchType`.  `Batch::default()` constructs a
`BatchType::Logged` batch. -/
inductive BatchType where
  | logged
  | unlogged
  | counter
deriving DecidableEq, Repr

/-- The serial consistency levels relevant here. -/
inductive SerialConsistency where
  | serial
  | localSerial
deriving DecidableEq, Repr

/-- The bound values of the write statements `user_manager.rs` adds to
batches, one constructor per prepared statement. -/
inductive StatementValues where
  | insertByUsername (username : String) (user_id : Uuid)
  | insertByEmail (email : String) (user_id : Uuid)
  | insertUsers (user_id : Uuid) (username email hashed_password : String)
      (first_name last_name : Option String) (is_active email_verified : Bool)
      (created_at updated_at : Instant) (last_login_at : Option Instant)
  | deleteByUsername (username : String)
  | deleteByEmail (email : String)
  | deleteUsers (user_id : Uuid)
deriving DecidableEq, Repr

/-- A bound prepared statement inside a batch: the CQL text it was
prepared from, plus its bound values. -/
structure BatchStatement where
  cql : String
  values : StatementValues
deriving DecidableEq, Repr

/-- The scylla driver's `Batch`: a batch type, an optional serial
consistency, and the list of added statements in insertion order. -/
structure Batch where
  batchType : BatchType
  serialConsistency : Option SerialConsistency
  statements : List BatchStatement
deriving DecidableEq, Repr

/-- `Batch::default()` of the scylla driver: a `Logged` batch with no
serial consistency set and no statements. -/
def Batch.mkDefault : Batch :=
  { batchType := .logged, serialConsistency := none, statements := [] }

/-- The CQL texts prepared in `UserManager::new`, with the `KEYSPACE`
constant `collaborate_core` substituted into the `format!` templates. -/
def cql_insert_user_by_username : String :=
  "INSERT INTO collaborate_core.users_by_username (username, user_id) VALUES (?, ?) IF NOT EXISTS"

/-- CQL of `prep_insert_user_by_email`. -/
def cql_insert_user_by_email : String :=
  "INSERT INTO collaborate_core.users_by_email (email, user_id) VALUES (?, ?) IF NOT EXISTS"

/-- CQL of `prep_insert_user`. -/
def cql_insert_user : String :=
  "INSERT INTO collaborate_core.users (user_id, username, email, hashed_password, first_name, last_name, is_active, email_verified, created_at, updated_at, last_login_at) VALUES (?, ?, ?, ?, ?, ?, ?, ?, ?, ?, ?)"

/-- CQL of `prep_delete_user_by_username`. -/
def cql_delete_user_by_username : String :=
  "DELETE FROM collaborate_core.users_by_username WHERE username = ?"

/-- CQL of `prep_delete_user_by_email`. -/
def cql_delete_user_by_email : String :=
  "DELETE FROM collaborate_core.users_by_email WHERE email = ?"

/-- CQL of `prep_delete_user`. -/
def cql_delete_user : String :=
  "DELETE FROM collaborate_core.users WHERE user_id = ?"

/-- The LWT condition of one batch statement: `IF NOT EXISTS` on the two
lookup-table inserts, vacuously true for the unconditional statements. -/
def stmtCondition (db : DB) (s : BatchStatement) : Bool :=
  match s.values with
  | .insertByUsername u _ => (assocFind u db.users_by_username).isNone
  | .insertByEmail e _ => (assocFind e db.users_by_email).isNone
  | _ => true

/-- Effect of one batch statement on the store. -/
def applyStatement (db : DB) (s : BatchStatement) : DB :=
  match s.values with
  | .insertByUsername u id =>
      { db with users_by_username := assocSet u id db.users_by_username }
  | .insertByEmail e id =>
      { db with users_by_email := assocSet e id db.users_by_email }
  | .insertUsers id un em hp fn ln ia ev ca ua ll =>
      let row : UsersRow :=
        { username := some un, email := some em, hashed_password := some hp
        , first_name := fn, last_name := ln, is_active := some ia
        , email_verified := some ev, last_login_at := ll
        , created_at := some ca, updated_at := some ua }
      { db with users := assocSet id row db.users }
  | .deleteByUsername u =>
      { db with users_by_username := assocRemove u db.users_by_username }
  | .deleteByEmail e =>
      { db with users_by_email := assocRemove e db.users_by_email }
  | .deleteUsers id =>
      { db with users := assocRemove id db.users }

/-- Batch execution with LWT semantics: the batch applies all of its
statements when every condition holds and none otherwise; the returned
Bool is `was_applied`. -/
def applyBatch (db : DB) (b : Batch) : Bool × DB :=
  if b.statements.all (stmtCondition db) then
    (true, b.statements.foldl applyStatement db)
  else
    (false, db)

/-- A point lookup issued against one of the two lookup tables. -/
inductive Lookup where
  | byUsername (username : String)
  | byEmail (email : String)
deriving DecidableEq, Repr

deriving instance DecidableEq for Except

/-- Outcome of `create_user`: its returned value, the store afterwards,
the batches passed to `session.batch` in order, and the point lookups
issued after the batch in order. -/
structure CreateOutcome where
  result : Except UserManagerError User
  db : DB
  batches : List Batch
  lookups : List Lookup
deriving DecidableEq, Repr

/-- `UserManager::create_user` (`src/user_manager.rs` lines 194-261).
`user_id` stands for the fresh `Uuid::new_v4()` and `now` for the single
`Utc::now()` reading, both taken before the batch is built. -/
def create_user (db : DB) (username email hashed_password : String)
    (first_name last_name : Option String) (is_active email_verified : Bool)
    (user_id : Uuid) (now : Instant) : CreateOutcome :=
  let batch : Batch :=
    { Batch.mkDefault with
      serialConsistency := some .localSerial
      statements :=
        [ { cql := cql_insert_user_by_username, values := .insertByUsername username user_id }
        , { cql := cql_insert_user_by_email, values := .insertByEmail email user_id }
        , { cql := cql_insert_user
          , values := .insertUsers user_id username email hashed_password first_name
              last_name is_active email_verified now now none } ] }
  let res := applyBatch db batch
  if res.1 then
    { result := .ok
        { user_id := user_id, username := username, email := email
        , hashed_password := hashed_password, first_name := first_name
        , last_name := last_name, is_active := is_active
        , email_verified := email_verified, last_login_at := none
        , created_at := now, updated_at := now }
    , db := res.2, batches := [batch], lookups := [] }
  else
    match assocFind username db.users_by_username with
    | some _ =>
        { result := .error (.usernameTaken username), db := db
        , batches := [batch], lookups := [.byUsername username] }
    | none =>
        match assocFind email db.users_by_email with
        | some _ =>
            { result := .error (.emailTaken email), db := db
            , batches := [batch], lookups := [.byUsername username, .byEmail email] }
        | none =>
            { result := .error .usernameOrEmailAlreadyExists, db := db
            , batches := [batch], lookups := [.byUsername username, .byEmail email] }

/-- Decode a `users` row into the `User` struct, as the derived
`FromRow` impl does for `SELECT *`: every column bound to a non-Option
field must be non-null, otherwise decoding fails with a `FromRowError`
(wrapped as `RowParseError`).  The `user_id` column of the row equals
the partition key it is stored under. -/
def rowToUser (user_id : Uuid) (r : UsersRow) : Except UserManagerError User :=
  match r.username, r.email, r.hashed_password, r.is_active, r.email_verified,
      r.created_at, r.updated_at with
  | some un, some em, some hp, some ia, some ev, some ca, some ua =>
      .ok { user_id := user_id, username := un, email := em, hashed_password := hp
          , first_name := r.first_name, last_name := r.last_name, is_active := ia
          , email_verified := ev, last_login_at := r.last_login_at
          , created_at := ca, updated_at := ua }
  | _, _, _, _, _, _, _ => .error .rowParseError

/-- `UserManager::get_user_by_id`: point read of `users`; `Ok(None)`
when the row is absent, `RowParseError` when it does not decode. -/
def get_user_by_id (db : DB) (user_id : Uuid) : Except UserManagerError (Option User) :=
  match assocFind user_id db.users with
  | none => .ok none
  | some r =>
      match rowToUser user_id r with
      | .ok u => .ok (some u)
      | .error e => .error e

/-- `UserManager::get_user_id_by_username`: point read of
`users_by_username`.  The row type `(Uuid,)` always decodes here because
the `user_id` column of a lookup row is its stored value. -/
def get_user_id_by_username (db : DB) (username : String) :
    Except UserManagerError (Option Uuid) :=
  .ok (assocFind username db.users_by_username)

/-- `UserManager::get_user_id_by_email`: point read of `users_by_email`. -/
def get_user_id_by_email (db : DB) (email : String) :
    Except UserManagerError (Option Uuid) :=
  .ok (assocFind email db.users_by_email)

/-- `UserManager::get_user_by_username`: two-hop read, lookup table then
`get_user_by_id`. -/
def get_user_by_username (db : DB) (username : String) :
    Except UserManagerError (Option User) :=
  match get_user_id_by_username db username with
  | .error e => .error e
  | .ok (some user_id) => get_user_by_id db user_id
  | .ok none => .ok none

/-- `UserManager::get_user_by_email`: two-hop read, lookup table then
`get_user_by_id`. -/
def get_user_by_email (db : DB) (email : String) :
    Except UserManagerError (Option User) :=
  match get_user_id_by_email db email with
  | .error e => .error e
  | .ok (some user_id) => get_user_by_id db user_id
  | .ok none => .ok none

/-- Rust's `str::contains('@')`: whether any character of the string is
the given character.  Stated over the string's character list so that it
evaluates inside the kernel. -/
def containsChar (s : String) (c : Char) : Bool := s.data.contains c

/-- `UserManager::get_user_for_authentication` (`src/user_manager.rs`
lines 324-349): email path when the identifier contains an `@`,
username path otherwise; projects the found account into `AuthDetails`
without inspecting `is_active` or `email_verified`. -/
def get_user_for_authentication (db : DB) (identifier : String) :
    Except AuthenticationError AuthDetails :=
  let user :=
    if containsChar identifier '@' then get_user_by_email db identifier
    else get_user_by_username db identifier
  match user with
  | .error e => .error (.databaseError e)
  | .ok (some u) =>
      .ok { user_id := u.user_id, username := u.username, email := u.email
          , hashed_password := u.hashed_password, is_active := u.is_active
          , email_verified := u.email_verified }
  | .ok none => .error .userNotFound

/-- Effect of the prepared profile `UPDATE` on `users`.  A CQL `UPDATE`
is an upsert: when the partition is absent a row is created holding only
the assigned columns; assigning null (a `none` bound value) leaves the
column null. -/
def execUpdateProfile (db : DB) (user_id : Uuid) (first_name last_name : Option String)
    (is_active email_verified : Bool) (updated_at : Instant) : DB :=
  let r0 := (assocFind user_id db.users).getD {}
  let r1 : UsersRow :=
    { r0 with
      first_name := first_name
      last_name := last_name
      is_active := some is_active
      email_verified := some email_verified
      updated_at := some updated_at }
  { db with users := assocSet user_id r1 db.users }

/-- Rust's `Option::or`: the first operand when it is `Some`, otherwise
the second. -/
def optionOr (a b : Option α) : Option α :=
  match a with
  | some x => some x
  | none => b

/-- `UserManager::update_user_profile` (`src/user_manager.rs` lines
351-392).  `now` stands for the `Utc::now()` reading taken after the
current account is fetched. -/
def update_user_profile (db : DB) (user_id : Uuid)
    (first_name last_name : Option String) (is_active email_verified : Option Bool)
    (now : Instant) : Except UserManagerError User × DB :=
  match get_user_by_id db user_id with
  | .error e => (.error e, db)
  | .ok none => (.error .userNotFound, db)
  | .ok (some current_user) =>
      let new_first_name := optionOr first_name current_user.first_name
      let new_last_name := optionOr last_name current_user.last_name
      let new_is_active := is_active.getD current_user.is_active
      let new_email_verified := email_verified.getD current_user.email_verified
      let updated_at := now
      let db2 := execUpdateProfile db user_id new_first_name new_last_name
        new_is_active new_email_verified updated_at
      (.ok { current_user with
          first_name := new_first_name, last_name := new_last_name
        , is_active := new_is_active, email_verified := new_email_verified
        , updated_at := updated_at }, db2)

/-- Effect of the prepared password `UPDATE` on `users` (upsert). -/
def execUpdatePassword (db : DB) (user_id : Uuid) (hashed_password : String)
    (updated_at : Instant) : DB :=
  let r0 := (assocFind user_id db.users).getD {}
  let r1 : UsersRow :=
    { r0 with
      hashed_password := some hashed_password
      updated_at := some updated_at }
  { db with users := assocSet user_id r1 db.users }

/-- `UserManager::update_user_password` (`src/user_manager.rs` lines
394-407): a blind single-partition write, no prior read. -/
def update_user_password (db : DB) (user_id : Uuid) (new_hashed_password : String)
    (now : Instant) : Except UserManagerError Unit × DB :=
  (.ok (), execUpdatePassword db user_id new_hashed_password now)

/-- Effect of the prepared last-login `UPDATE` on `users` (upsert). -/
def execUpdateLastLogin (db : DB) (user_id : Uuid) (last_login_at : Option Instant)
    (updated_at : Instant) : DB :=
  let r0 := (assocFind user_id db.users).getD {}
  let r1 : UsersRow :=
    { r0 with
      last_login_at := last_login_at
      updated_at := some updated_at }
  { db with users := assocSet user_id r1 db.users }

/-- `UserManager::update_last_login` (`src/user_manager.rs` lines
409-415): a blind single-partition write stamping both `last_login_at`
and `updated_at` with one `Utc::now()` reading. -/
def update_last_login (db : DB) (user_id : Uuid) (now : Instant) :
    Except UserManagerError Unit × DB :=
  (.ok (), execUpdateLastLogin db user_id (some now) now)

/-- Outcome of `delete_user`: returned value, the store afterwards, and
the batches passed to `session.batch` in order. -/
structure DeleteOutcome where
  result : Except UserManagerError Unit
  db : DB
  batches : List Batch
deriving DecidableEq, Repr

/-- `UserManager::delete_user` (`src/user_manager.rs` lines 417-437):
resolve `(username, email)` from `users`, then execute one
`Batch::default()` batch of three deletes. -/
def delete_user (db : DB) (user_id : Uuid) : DeleteOutcome :=
  match assocFind user_id db.users with
  | none => { result := .error .userNotFound, db := db, batches := [] }
  | some r =>
      match r.username, r.email with
      | some username, some email =>
          let batch : Batch :=
            { Batch.mkDefault with
              statements :=
                [ { cql := cql_delete_user_by_username, values := .deleteByUsername username }
                , { cql := cql_delete_user_by_email, values := .deleteByEmail email }
                , { cql := cql_delete_user, values := .deleteUsers user_id } ] }
          let res := applyBatch db batch
          { result := .ok (), db := res.2, batches := [batch] }
      | _, _ => { result := .error .rowParseError, db := db, batches := [] }

/-- One mutating service call on a fixed account, with the `Utc::now()`
reading it takes at operation time. -/
inductive MutOp where
  | updateProfile (first_name last_name : Option String)
      (is_active email_verified : Option Bool) (now : Instant)
  | updatePassword (new_hashed_password : String) (now : Instant)
  | stampLastLogin (now : Instant)
deriving DecidableEq, Repr

/-- The clock reading of a mutating operation. -/
def MutOp.now : MutOp → Instant
  | .updateProfile _ _ _ _ t => t
  | .updatePassword _ t => t
  | .stampLastLogin t => t

/-- Apply one mutating service call to the store, keeping only its store
effect. -/
def applyMutOp (db : DB) (user_id : Uuid) : MutOp → DB
  | .updateProfile fn ln ia ev t => (update_user_profile db user_id fn ln ia ev t).2
  | .updatePassword p t => (update_user_password db user_id p t).2
  | .stampLastLogin t => (update_last_login db user_id t).2

/-- Apply a serialized sequence of mutating service calls to the store. -/
def applyMutOps (db : DB) (user_id : Uuid) (ops : List MutOp) : DB :=
  ops.foldl (fun d op => applyMutOp d user_id op) db

/-- Reading back the row keyed `k` right after writing it yields the
written value. -/
theorem assocFind_assocSet_self [DecidableEq α] (k : α) (v : β) (l : List (α × β)) :
    assocFind k (assocSet k v l) = some v := by
  induction l with
  | nil => simp [assocSet, assocFind]
  | cons hd tl ih =>
      obtain ⟨k1, v1⟩ := hd
      by_cases hk : k = k1 <;> simp [assocSet, assocFind, hk, ih]

/-- The stored `users` row that decodes to a given `User`. -/
def userToRow (u : User) : UsersRow :=
  { username := some u.username
  , email := some u.email
  , hashed_password := some u.hashed_password
  , first_name := u.first_name
  , last_name := u.last_name
  , is_active := some u.is_active
  , email_verified := some u.email_verified
  , last_login_at := u.last_login_at
  , created_at := some u.created_at
  , updated_at := some u.updated_at }

/-- Decoding succeeds exactly on rows of the shape `userToRow u` with
the matching key. -/
theorem rowToUser_ok_iff (id : Uuid) (r : UsersRow) (u : User) :
    rowToUser id r = .ok u ↔ (r = userToRow u ∧ u.user_id = id) := by
  constructor
  · intro h
    unfold rowToUser at h
    split at h
    · rename_i un em hp ia ev ca ua h1 h2 h3 h4 h5 h6 h7
      injection h with h
      subst h
      refine ⟨?_, rfl⟩
      cases r
      simp_all [userToRow]
    · exact absurd h (by simp)
  · rintro ⟨rfl, rfl⟩
    simp [rowToUser, userToRow]

/-- Point read of `users` succeeds with `some u` exactly when the row
stored under the key is `userToRow u` with the matching key. -/
theorem get_user_by_id_ok_iff (db : DB) (id : Uuid) (u : User) :
    get_user_by_id db id = .ok (some u) ↔
      (assocFind id db.users = some (userToRow u) ∧ u.user_id = id) := by
  unfold get_user_by_id
  constructor
  · intro h
    split at h
    · exact absurd h (by simp)
    · rename_i r hr
      split at h
      · rename_i u0 h0
        injection h with h
        injection h with h
        subst h
        obtain ⟨h1, h2⟩ := (rowToUser_ok_iff id r u0).mp h0
        exact ⟨h1 ▸ hr, h2⟩
      · exact absurd h (by simp)
  · rintro ⟨h1, h2⟩
    have h3 : rowToUser id (userToRow u) = .ok u :=
      (rowToUser_ok_iff id (userToRow u) u).mpr ⟨rfl, h2⟩
    simp [h1, h3]

/-- The account `create_user` assembles from its arguments, the
generated id and the single clock reading. -/
def createdUser (username email hashed_password : String)
    (first_name last_name : Option String) (is_active email_verified : Bool)
    (user_id : Uuid) (now : Instant) : User :=
  { user_id := user_id
  , username := username
  , email := email
  , hashed_password := hashed_password
  , first_name := first_name
  , last_name := last_name
  , is_active := is_active
  , email_verified := email_verified
  , last_login_at := none
  , created_at := now
  , updated_at := now }

/-- The batch `create_user` assembles: serial consistency LocalSerial
and the three insert statements in order. -/
def createBatch (username email hashed_password : String)
    (first_name last_name : Option String) (is_active email_verified : Bool)
    (user_id : Uuid) (now : Instant) : Batch :=
  { batchType := .logged
  , serialConsistency := some .localSerial
  , statements :=
      [ { cql := cql_insert_user_by_username
        , values := .insertByUsername username user_id }
      , { cql := cql_insert_user_by_email
        , values := .insertByEmail email user_id }
      , { cql := cql_insert_user
        , values := .insertUsers user_id username email hashed_password first_name
            last_name is_active email_verified now now none } ] }

/-- When both LWT conditions hold, the batch applies and `create_user`
returns the assembled account, writing all three tables. -/
theorem create_user_eq_applied (db : DB) (username email hashed_password : String)
    (first_name last_name : Option String) (is_active email_verified : Bool)
    (user_id : Uuid) (now : Instant)
    (hu : assocFind username db.users_by_username = none)
    (he : assocFind email db.users_by_email = none) :
    create_user db username email hashed_password first_name last_name
        is_active email_verified user_id now =
      { result := .ok (createdUser username email hashed_password first_name
          last_name is_active email_verified user_id now)
      , db :=
          { users := assocSet user_id (userToRow (createdUser username email
              hashed_password first_name last_name is_active email_verified
              user_id now)) db.users
          , users_by_username := assocSet username user_id db.users_by_username
          , users_by_email := assocSet email user_id db.users_by_email }
      , batches := [createBatch username email hashed_password first_name
          last_name is_active email_verified user_id now]
      , lookups := [] } := by
  simp [create_user, applyBatch, stmtCondition, applyStatement, hu, he,
    createdUser, createBatch, userToRow, Batch.mkDefault]

/-- When the username lookup row already exists, the batch is rejected
and `create_user` reports the username as taken after a single point
lookup. -/
theorem create_user_eq_username_taken (db : DB) (username email hashed_password : String)
    (first_name last_name : Option String) (is_active email_verified : Bool)
    (user_id : Uuid) (now : Instant) (w : Uuid)
    (hu : assocFind username db.users_by_username = some w) :
    create_user db username email hashed_password first_name last_name
        is_active email_verified user_id now =
      { result := .error (.usernameTaken username)
      , db := db
      , batches := [createBatch username email hashed_password first_name
          last_name is_active email_verified user_id now]
      , lookups := [.byUsername username] } := by
  simp [create_user, applyBatch, stmtCondition, hu, createBatch, Batch.mkDefault]

/-- When the username is free but the email lookup row exists, the
batch is rejected and `create_user` reports the email as taken after
two point lookups. -/
theorem create_user_eq_email_taken (db : DB) (username email hashed_password : String)
    (first_name last_name : Option String) (is_active email_verified : Bool)
    (user_id : Uuid) (now : Instant) (w : Uuid)
    (hu : assocFind username db.users_by_username = none)
    (he : assocFind email db.users_by_email = some w) :
    create_user db username email hashed_password first_name last_name
        is_active email_verified user_id now =
      { result := .error (.emailTaken email)
      , db := db
      , batches := [createBatch username email hashed_password first_name
          last_name is_active email_verified user_id now]
      , lookups := [.byUsername username, .byEmail email] } := by
  simp [create_user, applyBatch, stmtCondition, hu, he, createBatch, Batch.mkDefault]

/-- A successful `create_user` returns exactly `createdUser` applied to
its arguments. -/
theorem create_user_ok_elim (db : DB) (username email hashed_password : String)
    (first_name last_name : Option String) (is_active email_verified : Bool)
    (user_id : Uuid) (now : Instant) (u : User)
    (h : (create_user db username email hashed_password first_name last_name
        is_active email_verified user_id now).result = .ok u) :
    u = createdUser username email hashed_password first_name last_name
        is_active email_verified user_id now := by
  rcases hu : assocFind username db.users_by_username with _ | w
  · rcases he : assocFind email db.users_by_email with _ | w
    · rw [create_user_eq_applied db username email hashed_password first_name
        last_name is_active email_verified user_id now hu he] at h
      injection h with h
      exact h.symm
    · rw [create_user_eq_email_taken db username email hashed_password first_name
        last_name is_active email_verified user_id now w hu he] at h
      exact absurd h (by simp)
  · rw [create_user_eq_username_taken db username email hashed_password first_name
      last_name is_active email_verified user_id now w hu] at h
    exact absurd h (by simp)

/-- On success, the `users` row stored by `create_user` under the
generated id is exactly the encoding of the returned account. -/
theorem create_user_ok_db (db : DB) (username email hashed_password : String)
    (first_name last_name : Option String) (is_active email_verified : Bool)
    (user_id : Uuid) (now : Instant) (u : User)
    (h : (create_user db username email hashed_password first_name last_name
        is_active email_verified user_id now).result = .ok u) :
    assocFind user_id (create_user db username email hashed_password first_name
        last_name is_active email_verified user_id now).db.users =
      some (userToRow u) := by
  have hu2 := create_user_ok_elim db username email hashed_password first_name
    last_name is_active email_verified user_id now u h
  subst hu2
  rcases hu : assocFind username db.users_by_username with _ | w
  · rcases he : assocFind email db.users_by_email with _ | w
    · rw [create_user_eq_applied db username email hashed_password first_name
        last_name is_active email_verified user_id now hu he]
      exact assocFind_assocSet_self user_id _ db.users
    · rw [create_user_eq_email_taken db username email hashed_password first_name
        last_name is_active email_verified user_id now w hu he] at h
      exact absurd h (by simp)
  · rw [create_user_eq_username_taken db username email hashed_password first_name
      last_name is_active email_verified user_id now w hu] at h
    exact absurd h (by simp)

/-- C1: every call to `create_user` executes exactly one batch, whose
serial consistency is LocalSerial and whose statements are, in order,
the `IF NOT EXISTS` insert into `users_by_username`, the
`IF NOT EXISTS` insert into `users_by_email`, and the unconditional
insert of all fields into `users`. -/
theorem create_user_batch_spec (db : DB) (username email hashed_password : String)
    (first_name last_name : Option String) (is_active email_verified : Bool)
    (user_id : Uuid) (now : Instant) :
    (create_user db username email hashed_password first_name last_name
        is_active email_verified user_id now).batches =
      [ { batchType := .logged
        , serialConsistency := some .localSerial
        , statements :=
            [ { cql := cql_insert_user_by_username
              , values := .insertByUsername username user_id }
            , { cql := cql_insert_user_by_email
              , values := .insertByEmail email user_id }
            , { cql := cql_insert_user
              , values := .insertUsers user_id username email hashed_password
                  first_name last_name is_active email_verified now now none } ] } ] := by
  rcases hu : assocFind username db.users_by_username with _ | w
  · rcases he : assocFind email db.users_by_email with _ | w
    · rw [create_user_eq_applied db username email hashed_password first_name
        last_name is_active email_verified user_id now hu he]
      rfl
    · rw [create_user_eq_email_taken db username email hashed_password first_name
        last_name is_active email_verified user_id now w hu he]
      rfl
  · rw [create_user_eq_username_taken db username email hashed_password first_name
      last_name is_active email_verified user_id now w hu]
    rfl

/-- C5: a create whose batch reports applied returns an account whose
`user_id` is the freshly generated id, whose payload fields equal the
call's arguments, whose `created_at` and `updated_at` both equal the
single clock reading taken before the batch, and whose `last_login_at`
is `None`. -/
theorem create_user_success_returns_arguments (db : DB)
    (username email hashed_password : String)
    (first_name last_name : Option String) (is_active email_verified : Bool)
    (user_id : Uuid) (now : Instant) (u : User)
    (h : (create_user db username email hashed_password first_name last_name
        is_active email_verified user_id now).result = .ok u) :
    u.user_id = user_id ∧ u.username = username ∧ u.email = email ∧
    u.hashed_password = hashed_password ∧ u.first_name = first_name ∧
    u.last_name = last_name ∧ u.is_active = is_active ∧
    u.email_verified = email_verified ∧ u.created_at = now ∧
    u.updated_at = now ∧ u.created_at = u.updated_at ∧
    u.last_login_at = none := by
  have h2 := create_user_ok_elim db username email hashed_password first_name
    last_name is_active email_verified user_id now u h
  subst h2
  simp [createdUser]

/-- C5 witness: a concrete successful create on the empty store. -/
theorem create_user_success_returns_arguments_witness :
    (create_user {} "alice" "a@x.io" "h1" none none true true 7 5).result =
      .ok (createdUser "alice" "a@x.io" "h1" none none true true 7 5) ∧
    (createdUser "alice" "a@x.io" "h1" none none true true 7 5).created_at =
      (createdUser "alice" "a@x.io" "h1" none none true true 7 5).updated_at ∧
    (createdUser "alice" "a@x.io" "h1" none none true true 7 5).last_login_at = none := by
  refine ⟨by decide, ?_, ?_⟩
  · exact (create_user_success_returns_arguments {} "alice" "a@x.io" "h1" none none
      true true 7 5 _ (by decide)).2.2.2.2.2.2.2.2.2.2.1
  · exact (create_user_success_returns_arguments {} "alice" "a@x.io" "h1" none none
      true true 7 5 _ (by decide)).2.2.2.2.2.2.2.2.2.2.2

set_option maxRecDepth 4000 in
/-- C4 counterexample: with a clock reading of 1000001 ns (not on a
millisecond boundary), a successful create returns `created_at` and
`updated_at` that are not equal to their millisecond-truncated form, so
the account store does not truncate timestamps. -/
theorem create_user_timestamp_not_truncated :
    Except.map User.created_at
        (create_user {} "alice" "a@x.io" "h1" none none true true 7 1000001).result =
      Except.ok 1000001 ∧
    trunc_to_millis 1000001 ≠ 1000001 := by decide

/-- C4 amended: the account store applies no millisecond truncation:
the `created_at` and `updated_at` of the account returned by a
successful create equal the raw `Utc::now()` reading, so they satisfy
`t = trunc_to_millis t` only when the clock reading is already
millisecond-aligned; `trunc_to_millis` exists only in the document
service. -/
theorem create_user_timestamps_raw_clock (db : DB)
    (username email hashed_password : String)
    (first_name last_name : Option String) (is_active email_verified : Bool)
    (user_id : Uuid) (now : Instant) (u : User)
    (h : (create_user db username email hashed_password first_name last_name
        is_active email_verified user_id now).result = .ok u) :
    u.created_at = now ∧ u.updated_at = now ∧
    (trunc_to_millis now = now →
      u.created_at = trunc_to_millis u.created_at ∧
      u.updated_at = trunc_to_millis u.updated_at) := by
  have h2 := create_user_ok_elim db username email hashed_password first_name
    last_name is_active email_verified user_id now u h
  subst h2
  refine ⟨rfl, rfl, fun ht => ?_⟩
  exact ⟨ht.symm, ht.symm⟩

/-- C4 amended witness: a concrete create from a millisecond-aligned
clock reading. -/
theorem create_user_timestamps_raw_clock_witness :
    (create_user {} "alice" "a@x.io" "h1" none none true true 7 2000000).result =
      .ok (createdUser "alice" "a@x.io" "h1" none none true true 7 2000000) ∧
    (createdUser "alice" "a@x.io" "h1" none none true true 7 2000000).created_at =
      2000000 := by
  exact ⟨by decide, (create_user_timestamps_raw_clock {} "alice" "a@x.io" "h1"
    none none true true 7 2000000 _ (by decide)).1⟩

/-- C2 counterexample: when the batch is rejected because the username
is taken, `create_user` issues one point lookup, not two. -/
theorem create_user_conflict_lookups_counterexample :
    (create_user { users := [], users_by_username := [("bob", 3)], users_by_email := [] }
        "bob" "c@x.io" "h2" none none true true 9 5).result =
      .error (.usernameTaken "bob") ∧
    (create_user { users := [], users_by_username := [("bob", 3)], users_by_email := [] }
        "bob" "c@x.io" "h2" none none true true 9 5).lookups =
      [Lookup.byUsername "bob"] ∧
    [Lookup.byUsername "bob"].length ≠ 2 := by decide

/-- C2 amended: when the batch is rejected, `create_user` issues at most
two point lookups, username first and email only when the username
lookup finds no owner; it returns `UsernameTaken(username)` when the
username lookup finds an owner, otherwise `EmailTaken(email)` when the
email lookup finds an owner, and it never returns a created account
when either lookup table already owns the key. -/
theorem create_user_conflict_spec (db : DB) (username email hashed_password : String)
    (first_name last_name : Option String) (is_active email_verified : Bool)
    (user_id : Uuid) (now : Instant) :
    (∀ w, assocFind username db.users_by_username = some w →
      (create_user db username email hashed_password first_name last_name
          is_active email_verified user_id now).result =
        .error (.usernameTaken username) ∧
      (create_user db username email hashed_password first_name last_name
          is_active email_verified user_id now).lookups =
        [.byUsername username]) ∧
    (assocFind username db.users_by_username = none →
      ∀ w, assocFind email db.users_by_email = some w →
        (create_user db username email hashed_password first_name last_name
            is_active email_verified user_id now).result =
          .error (.emailTaken email) ∧
        (create_user db username email hashed_password first_name last_name
            is_active email_verified user_id now).lookups =
          [.byUsername username, .byEmail email]) ∧
    ((assocFind username db.users_by_username).isSome ∨
        (assocFind email db.users_by_email).isSome →
      ∀ u, (create_user db username email hashed_password first_name last_name
          is_active email_verified user_id now).result ≠ .ok u) := by
  refine ⟨fun w hu => ?_, fun hu w he => ?_, fun hsome u hok => ?_⟩
  · rw [create_user_eq_username_taken db username email hashed_password first_name
      last_name is_active email_verified user_id now w hu]
    exact ⟨rfl, rfl⟩
  · rw [create_user_eq_email_taken db username email hashed_password first_name
      last_name is_active email_verified user_id now w hu he]
    exact ⟨rfl, rfl⟩
  · rcases hu : assocFind username db.users_by_username with _ | w
    · rcases he : assocFind email db.users_by_email with _ | w
      · rw [hu, he] at hsome
        simp at hsome
      · rw [create_user_eq_email_taken db username email hashed_password first_name
          last_name is_active email_verified user_id now w hu he] at hok
        exact absurd hok (by simp)
    · rw [create_user_eq_username_taken db username email hashed_password first_name
        last_name is_active email_verified user_id now w hu] at hok
      exact absurd hok (by simp)

/-- C2 amended witness: the concrete username-taken and email-taken
collisions. -/
theorem create_user_conflict_spec_witness :
    (create_user { users := [], users_by_username := [("bob", 3)], users_by_email := [] }
        "bob" "c@x.io" "h2" none none true true 9 5).lookups =
      [Lookup.byUsername "bob"] ∧
    (create_user { users := [], users_by_username := [], users_by_email := [("c@x.io", 3)] }
        "dan" "c@x.io" "h2" none none true true 9 5).result =
      .error (.emailTaken "c@x.io") := by
  constructor
  · exact ((create_user_conflict_spec
      { users := [], users_by_username := [("bob", 3)], users_by_email := [] }
      "bob" "c@x.io" "h2" none none true true 9 5).1 3 (by decide)).2
  · exact (((create_user_conflict_spec
      { users := [], users_by_username := [], users_by_email := [("c@x.io", 3)] }
      "dan" "c@x.io" "h2" none none true true 9 5).2.1 (by decide)) 3 (by decide)).1

/-- C3 counterexample: with a `users_by_username` row mapping "alice" to
id 7 but no row for 7 in `users`, `get_user_by_username` returns the
not-found result `Ok(None)`, not `InconsistentData(7)`. -/
theorem get_user_by_username_dangling_counterexample :
    get_user_by_username
        { users := [], users_by_username := [("alice", 7)], users_by_email := [] }
        "alice" = .ok none ∧
    (Except.ok none : Except UserManagerError (Option User)) ≠
      .error (.inconsistentData 7) := by decide

/-- C3 amended: when a lookup-table row maps a username (or an email) to
a `user_id` that has no row in `users`, the read path returns `Ok(None)`
— a not-found result; the `InconsistentData` error variant exists but is
never produced by the read path. -/
theorem lookup_hit_users_miss_returns_none (db : DB) (key : String) (user_id : Uuid) :
    (assocFind key db.users_by_username = some user_id →
      assocFind user_id db.users = none →
      get_user_by_username db key = .ok none) ∧
    (assocFind key db.users_by_email = some user_id →
      assocFind user_id db.users = none →
      get_user_by_email db key = .ok none) := by
  constructor
  · intro h1 h2
    simp [get_user_by_username, get_user_id_by_username, get_user_by_id, h1, h2]
  · intro h1 h2
    simp [get_user_by_email, get_user_id_by_email, get_user_by_id, h1, h2]

/-- C3 amended witness: the concrete dangling username and email lookup
rows. -/
theorem lookup_hit_users_miss_returns_none_witness :
    get_user_by_username
        { users := [], users_by_username := [("alice", 7)], users_by_email := [] }
        "alice" = .ok none ∧
    get_user_by_email
        { users := [], users_by_username := [], users_by_email := [("a@x.io", 7)] }
        "a@x.io" = .ok none := by
  constructor
  · exact (lookup_hit_users_miss_returns_none
      { users := [], users_by_username := [("alice", 7)], users_by_email := [] }
      "alice" 7).1 (by decide) (by decide)
  · exact (lookup_hit_users_miss_returns_none
      { users := [], users_by_username := [], users_by_email := [("a@x.io", 7)] }
      "a@x.io" 7).2 (by decide) (by decide)

/-- C8: `get_user_for_authentication` resolves the identifier through
the email path exactly when it contains an `@` and through the username
path otherwise; when that path finds an account it returns the
`AuthDetails` projection whose every field equals the corresponding
stored field, with no condition on `is_active` or `email_verified`; and
when that path finds no account it returns `UserNotFound`. -/
theorem get_user_for_authentication_spec (db : DB) (identifier : String) :
    (∀ u : User,
      (if containsChar identifier '@' then get_user_by_email db identifier
        else get_user_by_username db identifier) = .ok (some u) →
      get_user_for_authentication db identifier =
        .ok { user_id := u.user_id
            , username := u.username
            , email := u.email
            , hashed_password := u.hashed_password
            , is_active := u.is_active
            , email_verified := u.email_verified }) ∧
    ((if containsChar identifier '@' then get_user_by_email db identifier
        else get_user_by_username db identifier) = .ok none →
      get_user_for_authentication db identifier = .error .userNotFound) := by
  constructor
  · intro u h
    simp [get_user_for_authentication, h]
  · intro h
    simp [get_user_for_authentication, h]

/-- Fixture: an inactive, unverified account used to witness the
authentication-lookup contract. -/
def erinUser : User :=
  { user_id := 7
  , username := "erin"
  , email := "e@x.io"
  , hashed_password := "H"
  , first_name := none
  , last_name := none
  , is_active := false
  , email_verified := false
  , last_login_at := none
  , created_at := 5
  , updated_at := 5 }

/-- Fixture: the store holding `erinUser` in all three tables. -/
def erinDB : DB :=
  { users := [(7, userToRow erinUser)]
  , users_by_username := [("erin", 7)]
  , users_by_email := [("e@x.io", 7)] }

/-- Fixture: the `AuthDetails` projection of `erinUser`. -/
def erinAuth : AuthDetails :=
  { user_id := 7
  , username := "erin"
  , email := "e@x.io"
  , hashed_password := "H"
  , is_active := false
  , email_verified := false }

/-- C8 witness: `erinUser` is reachable both as the username "erin" (no
at-sign) and as the email "e@x.io" (contains an at-sign); both paths
return the projection even though the account is inactive and
unverified. -/
theorem get_user_for_authentication_spec_witness :
    get_user_for_authentication erinDB "e@x.io" = .ok erinAuth ∧
    get_user_for_authentication erinDB "erin" = .ok erinAuth := by
  constructor
  · exact (get_user_for_authentication_spec erinDB "e@x.io").1 erinUser (by decide)
  · exact (get_user_for_authentication_spec erinDB "erin").1 erinUser (by decide)

/-- C10: `update_user_password` and `update_last_login` perform no
existence check: on any store, including one with no row for the given
id, the database write succeeds and they return `Ok(())` — never
`UserNotFound`; and because the underlying CQL `UPDATE` is an upsert,
invoking either on an absent id materializes a row in `users` holding
only the assigned columns (a partial row). -/
theorem blind_updates_upsert_spec (db : DB) (user_id : Uuid)
    (new_hashed_password : String) (now : Instant) :
    (update_user_password db user_id new_hashed_password now).1 = .ok () ∧
    (update_last_login db user_id now).1 = .ok () ∧
    (assocFind user_id db.users = none →
      assocFind user_id (update_user_password db user_id new_hashed_password now).2.users =
        some { hashed_password := some new_hashed_password, updated_at := some now } ∧
      assocFind user_id (update_last_login db user_id now).2.users =
        some { last_login_at := some now, updated_at := some now }) := by
  refine ⟨rfl, rfl, fun h => ⟨?_, ?_⟩⟩
  · simp [update_user_password, execUpdatePassword, h, assocFind_assocSet_self]
  · simp [update_last_login, execUpdateLastLogin, h, assocFind_assocSet_self]

/-- C10 witness: the blind writes on the empty store create partial
rows for id 42. -/
theorem blind_updates_upsert_spec_witness :
    (update_user_password {} 42 "p" 9).1 = .ok () ∧
    assocFind 42 (update_user_password {} 42 "p" 9).2.users =
      some { hashed_password := some "p", updated_at := some 9 } := by
  refine ⟨(blind_updates_upsert_spec {} 42 "p" 9).1, ?_⟩
  exact ((blind_updates_upsert_spec {} 42 "p" 9).2.2 (by decide)).1

/-- Fixture: the stored `users` row of account 7 used to witness the
deletion protocol. -/
def gilRow : UsersRow :=
  { username := some "gil"
  , email := some "g@x.io"
  , hashed_password := some "h"
  , first_name := none
  , last_name := none
  , is_active := some true
  , email_verified := some false
  , last_login_at := none
  , created_at := some 5
  , updated_at := some 5 }

/-- Fixture: the store holding account 7 in all three tables. -/
def gilDB : DB :=
  { users := [(7, gilRow)]
  , users_by_username := [("gil", 7)]
  , users_by_email := [("g@x.io", 7)] }

/-- C7 counterexample: deleting an existing account executes a batch of
type `Logged` (the scylla `Batch::default()`), not `Unlogged`. -/
theorem delete_user_batch_logged_counterexample :
    (delete_user gilDB 7).batches.map Batch.batchType = [BatchType.logged] ∧
    BatchType.logged ≠ BatchType.unlogged := by decide

/-- C7 amended: `delete_user` first resolves the account's current
`(username, email)` from the `users` row and returns `UserNotFound`
executing no batch when the row is absent; otherwise it assembles and
executes exactly one driver-default (logged, not unlogged) batch whose
statements are, in order, the delete from `users_by_username` by that
username, the delete from `users_by_email` by that email, and the
delete from `users` by the user id. -/
theorem delete_user_spec (db : DB) (user_id : Uuid) :
    (assocFind user_id db.users = none →
      (delete_user db user_id).result = .error .userNotFound ∧
      (delete_user db user_id).batches = [] ∧
      (delete_user db user_id).db = db) ∧
    (∀ r username email, assocFind user_id db.users = some r →
      r.username = some username → r.email = some email →
      (delete_user db user_id).result = .ok () ∧
      (delete_user db user_id).batches =
        [ { batchType := .logged
          , serialConsistency := none
          , statements :=
              [ { cql := cql_delete_user_by_username
                , values := .deleteByUsername username }
              , { cql := cql_delete_user_by_email
                , values := .deleteByEmail email }
              , { cql := cql_delete_user
                , values := .deleteUsers user_id } ] } ]) := by
  constructor
  · intro h
    refine ⟨?_, ?_, ?_⟩ <;> simp [delete_user, h]
  · intro r username email hr hu he
    refine ⟨?_, ?_⟩ <;>
      simp [delete_user, hr, hu, he, Batch.mkDefault]

/-- C7 amended witness: deleting the concrete account 7, and deleting
the missing account 9 on the same store. -/
theorem delete_user_spec_witness :
    (delete_user gilDB 7).result = .ok () ∧ (delete_user gilDB 9).batches = [] := by
  constructor
  · exact ((delete_user_spec gilDB 7).2 gilRow "gil" "g@x.io" (by decide) rfl rfl).1
  · exact ((delete_user_spec gilDB 9).1 (by decide)).2.1

/-- C6: `update_user_profile` reads the current account first and, when
the account is absent, returns `UserNotFound` without touching the
store; when it is present, the returned post-update account overlays
only the provided (`some`) fields among first name, last name,
is_active and email_verified onto the current account, a field passed
as `none` retains its prior stored value, `updated_at` becomes the
operation-time clock reading, the identity and credential fields
(`user_id`, `username`, `email`, `hashed_password`, `created_at`,
`last_login_at`) are unchanged, and reading the account back from the
updated store returns exactly the returned account. -/
theorem update_user_profile_spec (db : DB) (user_id : Uuid)
    (first_name last_name : Option String) (is_active email_verified : Option Bool)
    (now : Instant) :
    (get_user_by_id db user_id = .ok none →
      update_user_profile db user_id first_name last_name is_active email_verified now =
        (.error .userNotFound, db)) ∧
    (∀ cur u db2, get_user_by_id db user_id = .ok (some cur) →
      update_user_profile db user_id first_name last_name is_active email_verified now =
        (.ok u, db2) →
      u.user_id = cur.user_id ∧ u.username = cur.username ∧ u.email = cur.email ∧
      u.hashed_password = cur.hashed_password ∧ u.created_at = cur.created_at ∧
      u.last_login_at = cur.last_login_at ∧ u.updated_at = now ∧
      (∀ x, first_name = some x → u.first_name = some x) ∧
      (first_name = none → u.first_name = cur.first_name) ∧
      (∀ x, last_name = some x → u.last_name = some x) ∧
      (last_name = none → u.last_name = cur.last_name) ∧
      (∀ b, is_active = some b → u.is_active = b) ∧
      (is_active = none → u.is_active = cur.is_active) ∧
      (∀ b, email_verified = some b → u.email_verified = b) ∧
      (email_verified = none → u.email_verified = cur.email_verified) ∧
      get_user_by_id db2 user_id = .ok (some u)) := by
  constructor
  · intro h
    simp [update_user_profile, h]
  · intro cur u db2 hcur heq
    obtain ⟨hfind, hid⟩ := (get_user_by_id_ok_iff db user_id cur).mp hcur
    simp only [update_user_profile, hcur] at heq
    rw [Prod.mk.injEq] at heq
    obtain ⟨hu, hdb⟩ := heq
    injection hu with hu
    subst hu
    subst hdb
    refine ⟨rfl, rfl, rfl, rfl, rfl, rfl, rfl,
      ?_, ?_, ?_, ?_, ?_, ?_, ?_, ?_, ?_⟩
    · rintro x rfl; simp [optionOr]
    · rintro rfl; simp [optionOr]
    · rintro x rfl; simp [optionOr]
    · rintro rfl; simp [optionOr]
    · rintro b rfl; simp
    · rintro rfl; simp
    · rintro b rfl; simp
    · rintro rfl; simp
    · refine (get_user_by_id_ok_iff _ user_id _).mpr ⟨?_, hid⟩
      simp [execUpdateProfile, hfind, userToRow, assocFind_assocSet_self]

/-- Fixture: `erinUser` after `update_profile` with only
`email_verified = some true` at clock reading 9. -/
def erinUpdatedUser : User :=
  { user_id := 7
  , username := "erin"
  , email := "e@x.io"
  , hashed_password := "H"
  , first_name := none
  , last_name := none
  , is_active := false
  , email_verified := true
  , last_login_at := none
  , created_at := 5
  , updated_at := 9 }

/-- Fixture: the store after that profile update. -/
def erinUpdatedDB : DB :=
  { users := [(7, userToRow erinUpdatedUser)]
  , users_by_username := [("erin", 7)]
  , users_by_email := [("e@x.io", 7)] }

/-- C6 witness: patching only `email_verified` on the concrete account
leaves `is_active` and `created_at` as they were, flips
`email_verified`, and stamps `updated_at` with the clock reading. -/
theorem update_user_profile_spec_witness :
    erinUpdatedUser.is_active = erinUser.is_active ∧
    erinUpdatedUser.created_at = erinUser.created_at ∧
    erinUpdatedUser.email_verified = true ∧
    erinUpdatedUser.updated_at = 9 ∧
    get_user_by_id erinUpdatedDB 7 = .ok (some erinUpdatedUser) := by
  have h := (update_user_profile_spec erinDB 7 none none none (some true) 9).2
    erinUser erinUpdatedUser erinUpdatedDB (by decide) (by decide)
  exact ⟨h.2.2.2.2.2.2.2.2.2.2.2.2.1 rfl, h.2.2.2.2.1, h.2.2.2.2.2.2.2.2.2.2.2.2.2.1 true rfl,
    h.2.2.2.2.2.2.1, h.2.2.2.2.2.2.2.2.2.2.2.2.2.2.2⟩

/-- The effect of one mutating service call on the logical account. -/
def mutateUser (v : User) : MutOp → User
  | .updateProfile fn ln ia ev t =>
      { v with
        first_name := optionOr fn v.first_name
        last_name := optionOr ln v.last_name
        is_active := ia.getD v.is_active
        email_verified := ev.getD v.email_verified
        updated_at := t }
  | .updatePassword p t =>
      { v with
        hashed_password := p
        updated_at := t }
  | .stampLastLogin t =>
      { v with
        last_login_at := some t
        updated_at := t }

/-- Every mutating operation keeps `created_at` and `user_id` and stamps
`updated_at` with its clock reading. -/
theorem mutateUser_fields (v : User) (op : MutOp) :
    (mutateUser v op).created_at = v.created_at ∧
    (mutateUser v op).updated_at = op.now ∧
    (mutateUser v op).user_id = v.user_id := by
  cases op <;> simp [mutateUser, MutOp.now]

/-- One mutating service call transforms the stored `users` row exactly
as `mutateUser` transforms the account. -/
theorem applyMutOp_step (db : DB) (user_id : Uuid) (v : User) (op : MutOp)
    (hfind : assocFind user_id db.users = some (userToRow v))
    (hid : v.user_id = user_id) :
    assocFind user_id (applyMutOp db user_id op).users =
      some (userToRow (mutateUser v op)) := by
  cases op with
  | updateProfile fn ln ia ev t =>
      have hcur : get_user_by_id db user_id = .ok (some v) :=
        (get_user_by_id_ok_iff db user_id v).mpr ⟨hfind, hid⟩
      simp [applyMutOp, update_user_profile, hcur, execUpdateProfile, hfind,
        mutateUser, userToRow, assocFind_assocSet_self]
  | updatePassword p t =>
      simp [applyMutOp, update_user_password, execUpdatePassword, hfind,
        mutateUser, userToRow, assocFind_assocSet_self]
  | stampLastLogin t =>
      simp [applyMutOp, update_last_login, execUpdateLastLogin, hfind,
        mutateUser, userToRow, assocFind_assocSet_self]

/-- A serialized sequence of mutating calls tracks the fold of
`mutateUser` over the stored row. -/
theorem applyMutOps_tracks (user_id : Uuid) (ops : List MutOp) :
    ∀ db v, assocFind user_id db.users = some (userToRow v) →
      v.user_id = user_id →
      assocFind user_id (applyMutOps db user_id ops).users =
        some (userToRow (ops.foldl mutateUser v)) := by
  induction ops with
  | nil => intro db v h _; exact h
  | cons op rest ih =>
      intro db v h hid
      have hstep := applyMutOp_step db user_id v op h hid
      have hid2 : (mutateUser v op).user_id = user_id :=
        (mutateUser_fields v op).2.2.trans hid
      exact ih (applyMutOp db user_id op) (mutateUser v op) hstep hid2

/-- Folding mutating operations never changes `created_at` or
`user_id`. -/
theorem foldl_mutateUser_fields (ops : List MutOp) :
    ∀ v : User, (ops.foldl mutateUser v).created_at = v.created_at ∧
      (ops.foldl mutateUser v).user_id = v.user_id := by
  induction ops with
  | nil => intro v; exact ⟨rfl, rfl⟩
  | cons op rest ih =>
      intro v
      exact ⟨(ih (mutateUser v op)).1.trans (mutateUser_fields v op).1,
        (ih (mutateUser v op)).2.trans (mutateUser_fields v op).2.2⟩

/-- Folding mutating operations whose clock readings form a
non-decreasing chain from the current `updated_at` preserves
`created_at ≤ updated_at`. -/
theorem foldl_mutateUser_updated_ge (ops : List MutOp) :
    ∀ v : User,
      List.Chain (fun a b => a ≤ b) v.updated_at (ops.map MutOp.now) →
      v.created_at ≤ v.updated_at →
      (ops.foldl mutateUser v).created_at ≤ (ops.foldl mutateUser v).updated_at := by
  induction ops with
  | nil => intro v _ h0; exact h0
  | cons op rest ih =>
      intro v hchain h0
      rw [List.map_cons] at hchain
      cases hchain with
      | cons hle hrest =>
          apply ih (mutateUser v op)
          · rw [(mutateUser_fields v op).2.1]
            exact hrest
          · rw [(mutateUser_fields v op).1, (mutateUser_fields v op).2.1]
            exact le_trans h0 hle

/-- C9: starting from a successful create and applying any serialized
sequence of mutating operations (profile update, password update,
last-login stamp) whose clock readings are non-decreasing from the
creation instant, every operation stamps `updated_at` with its clock
reading (the final account is the fold of `mutateUser`), `created_at`
stays the creation instant, and the account always satisfies
`created_at ≤ updated_at`. -/
theorem mutations_preserve_timestamp_order (db : DB)
    (username email hashed_password : String)
    (first_name last_name : Option String) (is_active email_verified : Bool)
    (user_id : Uuid) (now0 : Instant) (u : User) (ops : List MutOp)
    (hok : (create_user db username email hashed_password first_name last_name
        is_active email_verified user_id now0).result = .ok u)
    (hchain : List.Chain (fun a b => a ≤ b) now0 (ops.map MutOp.now)) :
    get_user_by_id
        (applyMutOps (create_user db username email hashed_password first_name
          last_name is_active email_verified user_id now0).db user_id ops)
        user_id =
      .ok (some (ops.foldl mutateUser u)) ∧
    (ops.foldl mutateUser u).created_at = now0 ∧
    (ops.foldl mutateUser u).created_at ≤ (ops.foldl mutateUser u).updated_at := by
  have hu := create_user_ok_elim db username email hashed_password first_name
    last_name is_active email_verified user_id now0 u hok
  subst hu
  have hdb := create_user_ok_db db username email hashed_password first_name
    last_name is_active email_verified user_id now0 _ hok
  have htrack := applyMutOps_tracks user_id ops _
    (createdUser username email hashed_password first_name last_name is_active
      email_verified user_id now0) hdb rfl
  have hfields := foldl_mutateUser_fields ops
    (createdUser username email hashed_password first_name last_name is_active
      email_verified user_id now0)
  refine ⟨(get_user_by_id_ok_iff _ user_id _).mpr ⟨htrack, hfields.2⟩,
    hfields.1, ?_⟩
  apply foldl_mutateUser_updated_ge ops
  · exact hchain
  · exact le_refl now0

/-- C9 witness: creating an account at clock reading 5 and then
applying a password update at 6 and a last-login stamp at 8. -/
theorem mutations_preserve_timestamp_order_witness :
    get_user_by_id
        (applyMutOps (create_user {} "alice" "a@x.io" "h1" none none true true 7 5).db
          7 [MutOp.updatePassword "p2" 6, MutOp.stampLastLogin 8]) 7 =
      .ok (some ([MutOp.updatePassword "p2" 6, MutOp.stampLastLogin 8].foldl mutateUser
        (createdUser "alice" "a@x.io" "h1" none none true true 7 5))) ∧
    ([MutOp.updatePassword "p2" 6, MutOp.stampLastLogin 8].foldl mutateUser
        (createdUser "alice" "a@x.io" "h1" none none true true 7 5)).created_at = 5 ∧
    ([MutOp.updatePassword "p2" 6, MutOp.stampLastLogin 8].foldl mutateUser
        (createdUser "alice" "a@x.io" "h1" none none true true 7 5)).created_at ≤
      ([MutOp.updatePassword "p2" 6, MutOp.stampLastLogin 8].foldl mutateUser
        (createdUser "alice" "a@x.io" "h1" none none true true 7 5)).updated_at := by
  exact mutations_preserve_timestamp_order {} "alice" "a@x.io" "h1" none none
    true true 7 5 (createdUser "alice" "a@x.io" "h1" none none true true 7 5)
    [MutOp.updatePassword "p2" 6, MutOp.stampLastLogin 8] (by decide)
    (List.Chain.cons (by decide) (List.Chain.cons (by decide) List.Chain.nil))
